import Mathlib

/-!
Verification of the authentication / rate-limiting core of the `progressor`
repository (files `src/lib/rate-limit.ts`, `src/lib/auth-logger.ts`,
`src/lib/auth.ts`) against its natural-language specification.

Modelling conventions:
* JS timestamps (`Date.now()`, milliseconds) are `Int`;
* the rate limiter's `Map<string, RateLimitEntry>` is an association list with
  `Map.get` / `Map.set` / `Map.delete` semantics (set replaces in place, the
  store never holds two entries for one key);
* the Prisma tables (`User`, `VerificationToken`) are lists of records;
  `findUnique` is a first-match lookup, `deleteMany` / `delete` filter rows
  out, and `update` on a missing row is a thrown error, modelled as `.error`;
* `bcrypt.compare` / `hashPassword` and the crypto-random `generateToken`
  are external primitives: they are passed in as parameters (a comparison
  function, a hash function, and the freshly generated token string).
-/

namespace Progressor

/-! ## Rate limiter (`src/lib/rate-limit.ts`) -/

/-- `RateLimitEntry` from rate-limit.ts: attempt count plus the timestamps of
the first and last attempt of the current window. -/
structure RateLimitEntry where
  count : Nat
  firstAttempt : Int
  lastAttempt : Int
deriving Repr, DecidableEq

/-- `RateLimitOptions` from rate-limit.ts. -/
structure RateLimitOptions where
  maxAttempts : Nat
  windowMs : Int
deriving Repr, DecidableEq

/-- `RateLimitResult` from rate-limit.ts (`remainingMs` is the optional
retry-after duration, present only on the rejecting branch). -/
structure RateLimitResult where
  success : Bool
  remaining : Int
  remainingMs : Option Int
deriving Repr, DecidableEq

/-- The limiter's private `Map<string, RateLimitEntry>`. -/
abbrev RLStore := List (String × RateLimitEntry)

/-- `Map.get`: first entry stored under `key`. -/
def rlGet : RLStore → String → Option RateLimitEntry
  | [], _ => none
  | (k, v) :: t, key => if k == key then some v else rlGet t key

/-- `Map.set`: replace in place when the key is present, append otherwise. -/
def rlSet : RLStore → String → RateLimitEntry → RLStore
  | [], key, e => [(key, e)]
  | (k, v) :: t, key, e =>
      if k == key then (key, e) :: t else (k, v) :: rlSet t key e

/-- `Map.delete` (the store never holds a key twice, so filtering is exact). -/
def rlDelete (store : RLStore) (key : String) : RLStore :=
  store.filter (fun p => p.1 ≠ key)

namespace RateLimiter

/-- `RateLimiter.check` from rate-limit.ts, with the ambient `Date.now()`
passed in as `now`.  Returns the result together with the updated store. -/
def check (store : RLStore) (key : String) (options : RateLimitOptions)
    (now : Int) : RateLimitResult × RLStore :=
  match rlGet store key with
  | none =>
      -- No previous attempts
      (⟨true, (options.maxAttempts : Int) - 1, none⟩,
       rlSet store key ⟨1, now, now⟩)
  | some entry =>
      if now - entry.firstAttempt > options.windowMs then
        -- Window has expired, reset
        (⟨true, (options.maxAttempts : Int) - 1, none⟩,
         rlSet store key ⟨1, now, now⟩)
      else
        -- Still within window: increment, then test against maxAttempts
        let entry2 : RateLimitEntry := ⟨entry.count + 1, entry.firstAttempt, now⟩
        let store2 := rlSet store key entry2
        if entry2.count > options.maxAttempts then
          (⟨false, 0, some (max 0 (options.windowMs - (now - entry.firstAttempt)))⟩,
           store2)
        else
          (⟨true, (options.maxAttempts : Int) - (entry2.count : Int), none⟩, store2)

/-- `RateLimiter.reset` from rate-limit.ts. -/
def reset (store : RLStore) (key : String) : RLStore :=
  rlDelete store key

/-- `RateLimiter.getCount` from rate-limit.ts. -/
def getCount (store : RLStore) (key : String) : Nat :=
  match rlGet store key with
  | some e => e.count
  | none => 0

end RateLimiter

/-- State of the store after `n` consecutive `check` calls for `key`, starting
from the empty store, the `i`-th call happening at time `ts i`. -/
def checkSeq (key : String) (options : RateLimitOptions) (ts : Nat → Int) :
    Nat → RLStore
  | 0 => []
  | n + 1 => (RateLimiter.check (checkSeq key options ts n) key options (ts n)).2

/-- Result of the `(n+1)`-th `check` call in the scenario of `checkSeq`. -/
def checkResult (key : String) (options : RateLimitOptions) (ts : Nat → Int)
    (n : Nat) : RateLimitResult :=
  (RateLimiter.check (checkSeq key options ts n) key options (ts n)).1

/-! ## Auth event log (`src/lib/auth-logger.ts`) -/

/-- `AuthEventType` from auth-logger.ts. -/
inductive AuthEventType where
  | LOGIN_SUCCESS
  | LOGIN_FAILED
  | LOGIN_RATE_LIMITED
  | LOGOUT
  | ACCOUNT_CREATED
  | ACCOUNT_DELETED
  | EMAIL_VERIFIED
  | EMAIL_VERIFICATION_SENT
  | PASSWORD_CHANGED
  | PASSWORD_CHANGE_FAILED
  | PASSWORD_RESET_REQUESTED
  | PASSWORD_RESET_SUCCESS
  | PASSWORD_RESET_FAILED
  | SUSPICIOUS_ACTIVITY
  | SESSION_INVALIDATED
deriving Repr, DecidableEq

/-- `AuthLogEntry` from auth-logger.ts.  The `environment`, `userAgent` and
free-form `metadata` fields are not modelled: no claim depends on them and
`metadata` is an untyped `Record<string, unknown>`. -/
structure AuthLogEntry where
  type : AuthEventType
  email : Option String := none
  userId : Option String := none
  ip : Option String := none
  timestamp : Int
deriving Repr, DecidableEq

/-- `MAX_LOG_ENTRIES` from auth-logger.ts. -/
def MAX_LOG_ENTRIES : Nat := 10000

/-- `logAuthEvent` from auth-logger.ts: append the entry (timestamped with the
ambient `Date.now()`, passed inside `e`), then drop the oldest entry if the
buffer exceeds `MAX_LOG_ENTRIES`. -/
def logAuthEvent (logs : List AuthLogEntry) (e : AuthLogEntry) :
    List AuthLogEntry :=
  let logs2 := logs ++ [e]
  if MAX_LOG_ENTRIES < logs2.length then logs2.drop 1 else logs2

/-- Result type of `detectSuspiciousActivity`. -/
structure SuspiciousResult where
  suspicious : Bool
  reason : Option String := none
deriving Repr, DecidableEq

/-- Events of the trailing 1-hour window for `email` (`recentEvents` in
`detectSuspiciousActivity`).  `entry.email === email` is false whenever the
entry has no email, hence the comparison with `some email`. -/
def recentEventsFor (logs : List AuthLogEntry) (email : String) (now : Int) :
    List AuthLogEntry :=
  logs.filter (fun e =>
    e.email == some email && e.timestamp > now - 60 * 60 * 1000)

/-- `failedLogins` in `detectSuspiciousActivity`. -/
def failedLoginsFor (logs : List AuthLogEntry) (email : String) (now : Int) :
    List AuthLogEntry :=
  (recentEventsFor logs email now).filter
    (fun e => e.type == AuthEventType.LOGIN_FAILED)

/-- The distinct IPs of `failedLogins` (`uniqueIps`): `filter(Boolean)` drops
missing and empty-string IPs, the JS `Set` counts each remaining IP once. -/
def uniqueIpsFor (logs : List AuthLogEntry) (email : String) (now : Int) :
    List String :=
  (((failedLoginsFor logs email now).filterMap (fun e => e.ip)).filter
    (fun ip => ip ≠ "")).dedup

/-- `resetRequests` in `detectSuspiciousActivity`. -/
def resetRequestsFor (logs : List AuthLogEntry) (email : String) (now : Int) :
    List AuthLogEntry :=
  (recentEventsFor logs email now).filter
    (fun e => e.type == AuthEventType.PASSWORD_RESET_REQUESTED)

/-- `detectSuspiciousActivity` from auth-logger.ts. -/
def detectSuspiciousActivity (logs : List AuthLogEntry) (email : String)
    (now : Int) : SuspiciousResult :=
  if 10 ≤ (failedLoginsFor logs email now).length ∧
      3 ≤ (uniqueIpsFor logs email now).length then
    ⟨true, some "Multiple failed logins from different IPs"⟩
  else if 5 ≤ (resetRequestsFor logs email now).length then
    ⟨true, some "Excessive password reset requests"⟩
  else
    ⟨false, none⟩

/-- `cleanupOldLogs` from auth-logger.ts.  `findIdx?` returning `none` models
JS `findIndex` returning `-1`; the source only splices when `index > 0`, so
both the `-1` case and the `0` case leave the buffer untouched.  Returns the
removed count (`initialLength - logStore.length`) with the new buffer. -/
def cleanupOldLogs (logs : List AuthLogEntry) (now maxAgeMs : Int) :
    Nat × List AuthLogEntry :=
  let cutoff := now - maxAgeMs
  match logs.findIdx? (fun e => e.timestamp > cutoff) with
  | some index => if 0 < index then (index, logs.drop index) else (0, logs)
  | none => (0, logs)

/-! ## Auth orchestrator (`src/lib/auth.ts`) -/

/-- JS `String.prototype.toLowerCase`, modelled on the character list (the
byte-position-based core `String.toLower` does not reduce in the kernel). -/
def strToLower (s : String) : String := ⟨s.data.map Char.toLower⟩

/-- JS `String.prototype.trim`: strip leading and trailing whitespace. -/
def strTrim (s : String) : String :=
  ⟨((s.data.dropWhile Char.isWhitespace).reverse.dropWhile
      Char.isWhitespace).reverse⟩

/-- JS `String.prototype.startsWith`, modelled on the character list. -/
def strStartsWith (s p : String) : Bool := p.data.isPrefixOf s.data

/-- Drop the first `n` characters of a string (used for JS
`replace('reset:', '')` on a string known to start with `"reset:"`). -/
def strDrop (s : String) (n : Nat) : String := ⟨s.data.drop n⟩

/-- The fields of the Prisma `User` row that `auth.ts` reads and writes. -/
structure User where
  id : String
  email : String
  name : Option String := none
  password : Option String := none
  image : Option String := none
  emailVerified : Option Int := none
deriving Repr, DecidableEq

/-- A row of the Prisma `VerificationToken` table (`token` is the unique
lookup key, `identifier` is an email or a `"reset:" + email` composite). -/
structure VerificationToken where
  identifier : String
  token : String
  expires : Int
deriving Repr, DecidableEq

/-- The mutable state `auth.ts` touches: the rate-limiter map, the Prisma
`User` and `VerificationToken` tables, and the auth event log buffer. -/
structure Sys where
  rl : RLStore := []
  users : List User := []
  tokens : List VerificationToken := []
  logs : List AuthLogEntry := []
deriving Repr, DecidableEq

/-- `MAX_LOGIN_ATTEMPTS` from auth.ts. -/
def MAX_LOGIN_ATTEMPTS : Nat := 5

/-- `LOCKOUT_DURATION_MINUTES` from auth.ts. -/
def LOCKOUT_DURATION_MINUTES : Nat := 15

/-- The rate-limit policy `authorize` passes to `rateLimit.check`:
`MAX_LOGIN_ATTEMPTS` attempts per `LOCKOUT_DURATION_MINUTES * 60 * 1000` ms. -/
def authPolicy : RateLimitOptions :=
  ⟨MAX_LOGIN_ATTEMPTS, (LOCKOUT_DURATION_MINUTES : Int) * 60 * 1000⟩

/-- `Math.ceil(ms / 60000)` on integer `ms` (the `remainingMinutes`
computation of `authorize`'s rate-limited branch). -/
def remainingMinutes (ms : Int) : Int :=
  Int.ediv (ms + 59999) 60000

/-- The `RateLimitError` message built in `authorize`. -/
def rateLimitMessage (ms : Int) : String :=
  "Çok fazla başarısız giriş denemesi. " ++ toString (remainingMinutes ms) ++
    " dakika sonra tekrar deneyin."

/-- Outcome of `authorize`: a thrown `AuthError (message, code)`, a thrown
`RateLimitError (message)`, or the returned user object. -/
inductive AuthOutcome where
  | authError (message code : String)
  | rateLimitError (message : String)
  | user (id email : String) (name image : Option String)
      (emailVerified : Option Int)
deriving Repr, DecidableEq

/-- One `authorize` run: its outcome, the state it leaves behind, and whether
control reached the `db.user.findUnique` credential lookup. -/
structure AuthorizeRun where
  outcome : AuthOutcome
  sys : Sys
  credentialStoreConsulted : Bool
deriving Repr, DecidableEq

/-- The `authorize` callback of the credentials provider in auth.ts.
`bcryptCompare` stands for `bcrypt.compare`, `now` for `Date.now()`; empty
strings model the missing-credential (`!credentials?.email`) guard. -/
def authorize (s : Sys) (email password clientIp : String)
    (bcryptCompare : String → String → Bool) (now : Int) : AuthorizeRun :=
  if email = "" ∨ password = "" then
    ⟨.authError "Email ve şifre gereklidir" "MISSING_CREDENTIALS", s, false⟩
  else
    let em := strTrim (strToLower email)
    let res := RateLimiter.check s.rl ("auth:" ++ em) authPolicy now
    let s1 : Sys := { s with rl := res.2 }
    if res.1.success = false then
      let entry : AuthLogEntry :=
        ⟨.LOGIN_RATE_LIMITED, some em, none, some clientIp, now⟩
      ⟨.rateLimitError (rateLimitMessage (res.1.remainingMs.getD 0)),
       { s1 with logs := logAuthEvent s1.logs entry }, false⟩
    else
      match s1.users.find? (fun u => u.email == em) with
      | none =>
          let entry : AuthLogEntry :=
            ⟨.LOGIN_FAILED, some em, none, some clientIp, now⟩
          ⟨.authError "Geçersiz email veya şifre" "INVALID_CREDENTIALS",
           { s1 with logs := logAuthEvent s1.logs entry }, true⟩
      | some u =>
          match u.password with
          | none =>
              let entry : AuthLogEntry :=
                ⟨.LOGIN_FAILED, some em, none, some clientIp, now⟩
              ⟨.authError "Geçersiz email veya şifre" "INVALID_CREDENTIALS",
               { s1 with logs := logAuthEvent s1.logs entry }, true⟩
          | some hash =>
              if bcryptCompare password hash then
                let entry : AuthLogEntry :=
                  ⟨.LOGIN_SUCCESS, some em, some u.id, some clientIp, now⟩
                ⟨.user u.id u.email u.name u.image u.emailVerified,
                 { s1 with
                    rl := RateLimiter.reset s1.rl ("auth:" ++ em),
                    logs := logAuthEvent s1.logs entry },
                 true⟩
              else
                let entry : AuthLogEntry :=
                  ⟨.LOGIN_FAILED, some em, some u.id, some clientIp, now⟩
                ⟨.authError "Geçersiz email veya şifre" "INVALID_CREDENTIALS",
                 { s1 with logs := logAuthEvent s1.logs entry },
                 true⟩

/-- `generateVerificationToken` from auth.ts.  The crypto-random
`generateToken(64)` output is passed in as `tok`; expiry is 24 hours. -/
def generateVerificationToken (s : Sys) (email tok : String) (now : Int) :
    String × Sys :=
  let expires := now + 24 * 60 * 60 * 1000
  let tokens := (s.tokens.filter (fun t => t.identifier ≠ email)) ++
    [⟨email, tok, expires⟩]
  (tok, { s with tokens := tokens })

/-- `verifyEmailToken` from auth.ts.  `.error ()` models the exception Prisma
throws when `db.user.update` finds no user row for the token's identifier. -/
def verifyEmailToken (s : Sys) (tok : String) (now : Int) :
    Except Unit (Option String × Sys) :=
  match s.tokens.find? (fun t => t.token == tok) with
  | none => .ok (none, s)
  | some vt =>
      if vt.expires < now then
        .ok (none, { s with tokens := s.tokens.filter (fun t => t.token ≠ tok) })
      else
        let email := vt.identifier
        match s.users.find? (fun u => u.email == email) with
        | none => .error ()
        | some _ =>
            let users := s.users.map (fun u =>
              if u.email == email then { u with emailVerified := some now } else u)
            let tokens := s.tokens.filter (fun t => t.token ≠ tok)
            let entry : AuthLogEntry := ⟨.EMAIL_VERIFIED, some email, none, none, now⟩
            let logs := logAuthEvent s.logs entry
            .ok (some email, { s with users := users, tokens := tokens, logs := logs })

/-- `generatePasswordResetToken` from auth.ts: `none` when the email has no
user; otherwise replaces any token under identifier `"reset:" + email` with a
fresh one (the random `generateToken(64)` output passed as `tok`, 1h ttl). -/
def generatePasswordResetToken (s : Sys) (email tok : String) (now : Int) :
    Option String × Sys :=
  match s.users.find? (fun u => u.email == email) with
  | none => (none, s)
  | some u =>
      let expires := now + 60 * 60 * 1000
      let tokens := (s.tokens.filter
        (fun t => t.identifier ≠ "reset:" ++ email)) ++
        [⟨"reset:" ++ email, tok, expires⟩]
      let entry : AuthLogEntry :=
        ⟨.PASSWORD_RESET_REQUESTED, some email, some u.id, none, now⟩
      let logs := logAuthEvent s.logs entry
      (some tok, { s with tokens := tokens, logs := logs })

/-- `resetPasswordWithToken` from auth.ts.  `hashPassword` stands for the
bcrypt hash; since the guard guarantees the identifier starts with
`"reset:"`, the JS first-occurrence `replace('reset:', '')` is exactly
dropping those first 6 characters.  `.error ()` models the exception Prisma
throws when `db.user.update` finds no user row for the recovered email. -/
def resetPasswordWithToken (s : Sys) (tok newPassword : String)
    (hashPassword : String → String) (now : Int) :
    Except Unit (Bool × Sys) :=
  match s.tokens.find? (fun t => t.token == tok) with
  | none => .ok (false, s)
  | some vt =>
      if ¬ strStartsWith vt.identifier "reset:" then
        .ok (false, s)
      else if vt.expires < now then
        .ok (false, { s with tokens := s.tokens.filter (fun t => t.token ≠ tok) })
      else
        let email := strDrop vt.identifier 6
        match s.users.find? (fun u => u.email == email) with
        | none => .error ()
        | some _ =>
            let hashed := hashPassword newPassword
            let users := s.users.map (fun u =>
              if u.email == email then { u with password := some hashed } else u)
            let tokens := s.tokens.filter (fun t => t.token ≠ tok)
            let rl := RateLimiter.reset s.rl ("auth:" ++ email)
            let entry : AuthLogEntry :=
              ⟨.PASSWORD_RESET_SUCCESS, some email, none, none, now⟩
            let logs := logAuthEvent s.logs entry
            .ok (true, { s with rl := rl, users := users, tokens := tokens, logs := logs })

/-! ### Store lemmas -/

theorem rlGet_rlSet_self (store : RLStore) (key : String) (e : RateLimitEntry) :
    rlGet (rlSet store key e) key = some e := by
  induction store with
  | nil => simp [rlGet, rlSet]
  | cons p t ih =>
      obtain ⟨k, v⟩ := p
      by_cases h : k = key
      · simp [rlGet, rlSet, h]
      · simp [rlGet, rlSet, h, ih]

theorem rlGet_rlDelete_self (store : RLStore) (key : String) :
    rlGet (rlDelete store key) key = none := by
  induction store with
  | nil => rfl
  | cons p t ih =>
      obtain ⟨k, v⟩ := p
      by_cases h : k = key
      · simpa [rlDelete, h] using ih
      · simpa [rlDelete, rlGet, h] using ih

/-! ### Single-step `check` lemmas -/

theorem check_of_rlGet_none (store : RLStore) (key : String)
    (options : RateLimitOptions) (now : Int) (h : rlGet store key = none) :
    RateLimiter.check store key options now =
      (⟨true, (options.maxAttempts : Int) - 1, none⟩,
       rlSet store key ⟨1, now, now⟩) := by
  unfold RateLimiter.check
  rw [h]

theorem check_fresh (key : String) (options : RateLimitOptions) (now : Int) :
    RateLimiter.check [] key options now =
      (⟨true, (options.maxAttempts : Int) - 1, none⟩, [(key, ⟨1, now, now⟩)]) := by
  rfl

theorem check_in_window (key : String) (options : RateLimitOptions)
    (now f l : Int) (c : Nat)
    (hwin : ¬ now - f > options.windowMs) (hc : c + 1 ≤ options.maxAttempts) :
    RateLimiter.check [(key, ⟨c, f, l⟩)] key options now =
      (⟨true, (options.maxAttempts : Int) - (c + 1 : Nat), none⟩,
       [(key, ⟨c + 1, f, now⟩)]) := by
  unfold RateLimiter.check
  simp only [rlGet, beq_self_eq_true, if_true, if_neg hwin]
  have hnot : ¬ c + 1 > options.maxAttempts := by omega
  simp [rlSet, hnot]

theorem check_exceeded (key : String) (options : RateLimitOptions)
    (now f l : Int) (c : Nat)
    (hwin : ¬ now - f > options.windowMs) (hc : options.maxAttempts < c + 1) :
    RateLimiter.check [(key, ⟨c, f, l⟩)] key options now =
      (⟨false, 0, some (max 0 (options.windowMs - (now - f)))⟩,
       [(key, ⟨c + 1, f, now⟩)]) := by
  unfold RateLimiter.check
  simp only [rlGet, beq_self_eq_true, if_true, if_neg hwin]
  simp [rlSet, hc]

/-! ### The `checkSeq` invariant -/

theorem checkSeq_eq (key : String) (options : RateLimitOptions) (ts : Nat → Int)
    (n : Nat)
    (hwin : ∀ i, i ≤ n → ts 0 ≤ ts i ∧ ts i - ts 0 ≤ options.windowMs) :
    checkSeq key options ts (n + 1) = [(key, ⟨n + 1, ts 0, ts n⟩)] := by
  induction n with
  | zero =>
      simp [checkSeq, check_fresh]
  | succ m ih =>
      have hstore := ih (fun i hi => hwin i (Nat.le_succ_of_le hi))
      have hm := hwin (m + 1) (le_refl _)
      show (RateLimiter.check (checkSeq key options ts (m + 1)) key options
        (ts (m + 1))).2 = _
      rw [hstore]
      have hnot : ¬ ts (m + 1) - ts 0 > options.windowMs := by
        omega
      by_cases hc : m + 1 + 1 ≤ options.maxAttempts
      · rw [check_in_window key options (ts (m + 1)) (ts 0) (ts m) (m + 1) hnot hc]
      · rw [check_exceeded key options (ts (m + 1)) (ts 0) (ts m) (m + 1) hnot
          (by omega)]

theorem checkResult_zero (key : String) (options : RateLimitOptions)
    (ts : Nat → Int) :
    checkResult key options ts 0 =
      ⟨true, (options.maxAttempts : Int) - 1, none⟩ := by
  simp [checkResult, checkSeq, check_fresh]

theorem checkResult_succ_allowed (key : String) (options : RateLimitOptions)
    (ts : Nat → Int) (n : Nat)
    (hwin : ∀ i, i ≤ n + 1 → ts 0 ≤ ts i ∧ ts i - ts 0 ≤ options.windowMs)
    (hc : n + 2 ≤ options.maxAttempts) :
    checkResult key options ts (n + 1) =
      ⟨true, (options.maxAttempts : Int) - (n + 2 : Nat), none⟩ := by
  have hstore := checkSeq_eq key options ts n
    (fun i hi => hwin i (Nat.le_succ_of_le hi))
  have hm := hwin (n + 1) (le_refl _)
  have hnot : ¬ ts (n + 1) - ts 0 > options.windowMs := by omega
  unfold checkResult
  rw [hstore, check_in_window key options (ts (n + 1)) (ts 0) (ts n) (n + 1) hnot hc]

theorem checkResult_succ_exceeded (key : String) (options : RateLimitOptions)
    (ts : Nat → Int) (n : Nat)
    (hwin : ∀ i, i ≤ n + 1 → ts 0 ≤ ts i ∧ ts i - ts 0 ≤ options.windowMs)
    (hc : options.maxAttempts < n + 2) :
    checkResult key options ts (n + 1) =
      ⟨false, 0, some (max 0 (options.windowMs - (ts (n + 1) - ts 0)))⟩ := by
  have hstore := checkSeq_eq key options ts n
    (fun i hi => hwin i (Nat.le_succ_of_le hi))
  have hm := hwin (n + 1) (le_refl _)
  have hnot : ¬ ts (n + 1) - ts 0 > options.windowMs := by omega
  unfold checkResult
  rw [hstore, check_exceeded key options (ts (n + 1)) (ts 0) (ts n) (n + 1) hnot hc]


/-! ### Helper lemmas on `List.find?` -/

theorem find?_append_of_none {α} (p : α → Bool) (l1 l2 : List α)
    (h : l1.find? p = none) : (l1 ++ l2).find? p = l2.find? p := by
  induction l1 with
  | nil => rfl
  | cons a t ih =>
      by_cases hpa : p a = true
      · simp [List.find?, hpa] at h
      · simp only [Bool.not_eq_true] at hpa
        simp only [List.find?, hpa] at h
        simpa [List.find?, hpa] using ih h

theorem find?_token_eq_none (l : List VerificationToken) (tok : String)
    (h : ∀ vt ∈ l, vt.token ≠ tok) :
    l.find? (fun t => t.token == tok) = none := by
  rw [List.find?_eq_none]
  intro x hx
  simpa using h x hx

theorem find?_token_filter_ne (l : List VerificationToken) (tok : String) :
    (l.filter (fun t => t.token ≠ tok)).find? (fun t => t.token == tok) = none := by
  apply find?_token_eq_none
  intro vt hvt
  simpa using (List.mem_filter.mp hvt).2

/-! ### C9: reset makes a key behave as unseen -/

/-- C9: for every key and any prior state of the store, after `reset key` the
next `check key` behaves exactly as for an unseen key: it succeeds with
`remaining = maxAttempts - 1` and stores a fresh entry with `count = 1`
(first and last attempt stamped with the current time). -/
theorem reset_then_check_as_unseen (store : RLStore) (key : String)
    (options : RateLimitOptions) (now : Int) :
    (RateLimiter.check (RateLimiter.reset store key) key options now).1 =
      ⟨true, (options.maxAttempts : Int) - 1, none⟩ ∧
    rlGet (RateLimiter.check (RateLimiter.reset store key) key options now).2
      key = some ⟨1, now, now⟩ := by
  have h : rlGet (RateLimiter.reset store key) key = none :=
    rlGet_rlDelete_self store key
  rw [check_of_rlGet_none _ _ _ _ h]
  exact ⟨rfl, rlGet_rlSet_self _ _ _⟩

/-! ### C3: window exhaustion -/

/-- C3 (amended): for every key, `maxAttempts ≥ 1`, `windowMs > 0` and
timestamps that all fall within `windowMs` of the first, the first
`maxAttempts` checks are allowed and the `(maxAttempts+1)`-th is rejected
with `remainingMs = windowMs - elapsed`; that value is always ≥ 0, and it is
strictly positive exactly when the rejected call arrives strictly less than
`windowMs` after the first. -/
theorem rateLimiter_window_exhaustion (key : String)
    (options : RateLimitOptions) (ts : Nat → Int)
    (hmax : 1 ≤ options.maxAttempts) (hwinpos : 0 < options.windowMs)
    (hwin : ∀ i, i ≤ options.maxAttempts →
      ts 0 ≤ ts i ∧ ts i - ts 0 ≤ options.windowMs) :
    (∀ n, n < options.maxAttempts →
      (checkResult key options ts n).success = true) ∧
    (checkResult key options ts options.maxAttempts).success = false ∧
    (checkResult key options ts options.maxAttempts).remainingMs =
      some (options.windowMs - (ts options.maxAttempts - ts 0)) ∧
    0 ≤ options.windowMs - (ts options.maxAttempts - ts 0) ∧
    (ts options.maxAttempts - ts 0 < options.windowMs →
      0 < options.windowMs - (ts options.maxAttempts - ts 0)) := by
  obtain ⟨m, hm⟩ : ∃ m, options.maxAttempts = m + 1 :=
    ⟨options.maxAttempts - 1, by omega⟩
  have hlast := hwin options.maxAttempts (le_refl _)
  have hnonneg : 0 ≤ options.windowMs - (ts options.maxAttempts - ts 0) := by
    omega
  refine ⟨?_, ?_, ?_, hnonneg, fun h => by omega⟩
  · intro n hn
    match n with
    | 0 => rw [checkResult_zero]
    | k + 1 =>
        rw [checkResult_succ_allowed key options ts k
          (fun i hi => hwin i (by omega)) (by omega)]
  · rw [hm, checkResult_succ_exceeded key options ts m
      (fun i hi => hwin i (by omega)) (by omega)]
  · rw [hm, checkResult_succ_exceeded key options ts m
      (fun i hi => hwin i (by omega)) (by omega)]
    have : max 0 (options.windowMs - (ts (m + 1) - ts 0)) =
        options.windowMs - (ts (m + 1) - ts 0) := by
      rw [hm] at hnonneg
      exact max_eq_right hnonneg
    rw [this]

/-- C3 witness: `maxAttempts = 2`, `windowMs = 10`, all three calls at time
0: the first two checks succeed, the third fails with `remainingMs = 10`. -/
theorem rateLimiter_window_exhaustion_witness :
    (checkResult "k" ⟨2, 10⟩ (fun _ => 0) 0).success = true ∧
    (checkResult "k" ⟨2, 10⟩ (fun _ => 0) 1).success = true ∧
    (checkResult "k" ⟨2, 10⟩ (fun _ => 0) 2).success = false ∧
    (checkResult "k" ⟨2, 10⟩ (fun _ => 0) 2).remainingMs = some 10 := by
  have h := rateLimiter_window_exhaustion "k" ⟨2, 10⟩ (fun _ => 0)
    (by decide) (by decide) (by intro i _; exact ⟨le_refl _, by norm_num⟩)
  exact ⟨h.1 0 (by decide), h.1 1 (by decide), h.2.1,
    by rw [h.2.2.1]; norm_num⟩

/-- C3 counterexample: with `maxAttempts = 1`, `windowMs = 5`, and the second
call exactly `windowMs` ms after the first (both calls fall within `windowMs`
of the first, since the active-window test is `now - firstAttempt ≤
windowMs`), the rejecting call reports `remainingMs = 0`, which is not
strictly greater than 0 as the claim demands. -/
theorem rateLimiter_window_exhaustion_boundary :
    (checkResult "k" ⟨1, 5⟩ (fun i => if i = 0 then 0 else 5) 0).success
      = true ∧
    (checkResult "k" ⟨1, 5⟩ (fun i => if i = 0 then 0 else 5) 1).success
      = false ∧
    (checkResult "k" ⟨1, 5⟩ (fun i => if i = 0 then 0 else 5) 1).remainingMs
      = some 0 := by
  refine ⟨?_, ?_, ?_⟩ <;> decide

/-! ### C7: age-based log cleanup -/

/-- C7 (code bug): `cleanupOldLogs` is supposed to remove every entry older
than `now - maxAgeMs`, but when every buffered entry is older than the
cutoff, JS `findIndex` returns `-1` and the `index > 0` guard skips the
splice: on a buffer holding a single entry with timestamp `0`, cutoff
`100 - 50 = 50`, the call removes nothing, reports `0` removed, and the
stale entry survives. -/
theorem cleanupOldLogs_keeps_stale_entries :
    cleanupOldLogs [⟨AuthEventType.LOGIN_FAILED, none, none, none, 0⟩] 100 50 =
      (0, [⟨AuthEventType.LOGIN_FAILED, none, none, none, 0⟩]) ∧
    (⟨AuthEventType.LOGIN_FAILED, none, none, none, 0⟩ :
      AuthLogEntry).timestamp < 100 - 50 := by
  refine ⟨?_, by norm_num⟩
  decide

/-! ### C8: suspicious-activity detection -/

/-- C8: restricted to the trailing 1-hour window for an email,
`detectSuspiciousActivity` returns the failed-logins reason when there are at
least 10 `LOGIN_FAILED` events from at least 3 distinct IPs (checked first);
otherwise the reset-requests reason when there are at least 5
`PASSWORD_RESET_REQUESTED` events; otherwise it is not suspicious. -/
theorem detectSuspiciousActivity_characterization
    (logs : List AuthLogEntry) (email : String) (now : Int) :
    (10 ≤ (failedLoginsFor logs email now).length →
      3 ≤ (uniqueIpsFor logs email now).length →
      detectSuspiciousActivity logs email now =
        ⟨true, some "Multiple failed logins from different IPs"⟩) ∧
    ((failedLoginsFor logs email now).length < 10 ∨
        (uniqueIpsFor logs email now).length < 3 →
      5 ≤ (resetRequestsFor logs email now).length →
      detectSuspiciousActivity logs email now =
        ⟨true, some "Excessive password reset requests"⟩) ∧
    ((failedLoginsFor logs email now).length < 10 ∨
        (uniqueIpsFor logs email now).length < 3 →
      (resetRequestsFor logs email now).length < 5 →
      detectSuspiciousActivity logs email now = ⟨false, none⟩) := by
  refine ⟨fun h1 h2 => ?_, fun h1 h2 => ?_, fun h1 h2 => ?_⟩ <;>
    unfold detectSuspiciousActivity
  · rw [if_pos ⟨h1, h2⟩]
  · rw [if_neg (by omega), if_pos h2]
  · rw [if_neg (by omega), if_neg (by omega)]

/-- C8 witness: a buffer holding exactly 9 `LOGIN_FAILED` events for one
email from 3 distinct IPs inside the window is not flagged. -/
theorem detectSuspiciousActivity_characterization_witness :
    detectSuspiciousActivity
      [⟨.LOGIN_FAILED, some "a@x.com", none, some "ip1", 4000000⟩,
       ⟨.LOGIN_FAILED, some "a@x.com", none, some "ip2", 4000000⟩,
       ⟨.LOGIN_FAILED, some "a@x.com", none, some "ip3", 4000000⟩,
       ⟨.LOGIN_FAILED, some "a@x.com", none, some "ip1", 4000000⟩,
       ⟨.LOGIN_FAILED, some "a@x.com", none, some "ip2", 4000000⟩,
       ⟨.LOGIN_FAILED, some "a@x.com", none, some "ip3", 4000000⟩,
       ⟨.LOGIN_FAILED, some "a@x.com", none, some "ip1", 4000000⟩,
       ⟨.LOGIN_FAILED, some "a@x.com", none, some "ip2", 4000000⟩,
       ⟨.LOGIN_FAILED, some "a@x.com", none, some "ip3", 4000000⟩]
      "a@x.com" 4000000 = ⟨false, none⟩ := by
  exact (detectSuspiciousActivity_characterization _ "a@x.com" 4000000).2.2
    (Or.inl (by decide)) (by decide)

/-! ### Helper lemmas on the token issuers -/

theorem gvt_tokens (s : Sys) (em tok : String) (t : Int) :
    ((generateVerificationToken s em tok t).2).tokens =
      s.tokens.filter (fun x => x.identifier ≠ em) ++
        [⟨em, tok, t + 24 * 60 * 60 * 1000⟩] := rfl

theorem gvt_users (s : Sys) (em tok : String) (t : Int) :
    ((generateVerificationToken s em tok t).2).users = s.users := rfl

theorem gprt_tokens (s : Sys) (em tok : String) (t : Int) (u : User)
    (hu : s.users.find? (fun v => v.email == em) = some u) :
    ((generatePasswordResetToken s em tok t).2).tokens =
      s.tokens.filter (fun x => x.identifier ≠ "reset:" ++ em) ++
        [⟨"reset:" ++ em, tok, t + 60 * 60 * 1000⟩] := by
  unfold generatePasswordResetToken
  rw [hu]

theorem gprt_users (s : Sys) (em tok : String) (t : Int) :
    ((generatePasswordResetToken s em tok t).2).users = s.users := by
  unfold generatePasswordResetToken
  cases h : s.users.find? (fun v => v.email == em) <;> rfl

/-! ### C4: at most one live token per identifier -/

/-- C4: issuing a new token for an identifier first deletes all prior tokens
for that identifier, so after a second issue for the same identifier the
first token is gone from the store and no longer consumable — for both a
verification token (consumed by `verifyEmailToken`, which returns `none`)
and a reset token (consumed by `resetPasswordWithToken`, which returns
`false`).  `hfresh` / `hfreshr` record that the randomly generated first
token did not already occur in the store, `hne` / `hner` that the two random
tokens differ. -/
theorem token_single_live_per_identifier
    (s s2 : Sys) (em em2 tok1 tok2 rtok1 rtok2 newPw : String)
    (hashPassword : String → String)
    (t1 t2 t3 t4 now now2 : Int) (u : User)
    (hfresh : ∀ vt ∈ s.tokens, vt.token ≠ tok1)
    (hne : tok1 ≠ tok2)
    (huser : s2.users.find? (fun v => v.email == em2) = some u)
    (hfreshr : ∀ vt ∈ s2.tokens, vt.token ≠ rtok1)
    (hner : rtok1 ≠ rtok2) :
    (let sv := (generateVerificationToken
        (generateVerificationToken s em tok1 t1).2 em tok2 t2).2
     sv.tokens.find? (fun x => x.token == tok1) = none ∧
     verifyEmailToken sv tok1 now = .ok (none, sv)) ∧
    (let sr := (generatePasswordResetToken
        (generatePasswordResetToken s2 em2 rtok1 t3).2 em2 rtok2 t4).2
     sr.tokens.find? (fun x => x.token == rtok1) = none ∧
     resetPasswordWithToken sr rtok1 newPw hashPassword now2 =
       .ok (false, sr)) := by
  constructor
  · have hnone : ((generateVerificationToken
        (generateVerificationToken s em tok1 t1).2 em tok2 t2).2).tokens.find?
          (fun x => x.token == tok1) = none := by
      apply find?_token_eq_none
      intro vt hvt
      rw [gvt_tokens, gvt_tokens] at hvt
      simp only [List.mem_append, List.mem_filter, List.mem_singleton,
        decide_eq_true_eq] at hvt
      rcases hvt with ⟨hvt | rfl, hem⟩ | rfl
      · exact hfresh vt hvt.1
      · exact absurd rfl hem
      · exact fun h => hne h.symm
    refine ⟨hnone, ?_⟩
    unfold verifyEmailToken
    rw [hnone]
  · have huser1 : ((generatePasswordResetToken s2 em2 rtok1 t3).2).users.find?
        (fun v => v.email == em2) = some u := by
      rw [gprt_users]; exact huser
    have hnone : ((generatePasswordResetToken
        (generatePasswordResetToken s2 em2 rtok1 t3).2 em2 rtok2 t4).2).tokens.find?
          (fun x => x.token == rtok1) = none := by
      apply find?_token_eq_none
      intro vt hvt
      rw [gprt_tokens _ _ _ _ _ huser1, gprt_tokens _ _ _ _ _ huser] at hvt
      simp only [List.mem_append, List.mem_filter, List.mem_singleton,
        decide_eq_true_eq] at hvt
      rcases hvt with ⟨hvt | rfl, hem⟩ | rfl
      · exact hfreshr vt hvt.1
      · exact absurd rfl hem
      · exact fun h => hner h.symm
    refine ⟨hnone, ?_⟩
    unfold resetPasswordWithToken
    rw [hnone]

/-- C4 witness: concrete second issuance for `bob@x.com` (verification and
reset namespaces) makes the first token unconsumable. -/
theorem token_single_live_per_identifier_witness :
    (let sv := (generateVerificationToken
        (generateVerificationToken ⟨[], [], [⟨"bob@x.com", "OLD", 50⟩], []⟩
          "bob@x.com" "T1" 0).2 "bob@x.com" "T2" 1).2
     sv.tokens.find? (fun x => x.token == "T1") = none ∧
     verifyEmailToken sv "T1" 2 = .ok (none, sv)) ∧
    (let sr := (generatePasswordResetToken
        (generatePasswordResetToken
          ⟨[], [⟨"u1", "bob@x.com", none, none, none, none⟩], [], []⟩
          "bob@x.com" "R1" 0).2 "bob@x.com" "R2" 1).2
     sr.tokens.find? (fun x => x.token == "R1") = none ∧
     resetPasswordWithToken sr "R1" "pw" (fun p => p) 2 =
       .ok (false, sr)) := by
  exact token_single_live_per_identifier _ _ _ _ _ _ _ _ _ _ _ _ _ _ _ _
    ⟨"u1", "bob@x.com", none, none, none, none⟩
    (by decide) (by decide) (by decide) (by decide) (by decide)

/-! ### C5: token round-trip, single use -/

/-- C5: consuming a freshly issued, unexpired verification token succeeds
exactly once — the first `verifyEmailToken` returns the token's identifier
(the email) and deletes the row, and a second call with the same token
returns `none`.  `hfresh` records that the random token is new to the store,
`huser` that the identifier belongs to a registered user (otherwise the
user-update inside `verifyEmailToken` would throw), `hunexpired` that the
consuming call happens within the 24h ttl. -/
theorem token_roundtrip_single_use
    (s : Sys) (em tok : String) (t0 t1 t2 : Int) (u : User)
    (hfresh : ∀ vt ∈ s.tokens, vt.token ≠ tok)
    (huser : s.users.find? (fun v => v.email == em) = some u)
    (hunexpired : ¬ t0 + 24 * 60 * 60 * 1000 < t1) :
    (let s1 := (generateVerificationToken s em tok t0).2
     let entry : AuthLogEntry := ⟨.EMAIL_VERIFIED, some em, none, none, t1⟩
     let s2 : Sys := { s1 with
       users := s1.users.map (fun v =>
         if v.email == em then { v with emailVerified := some t1 } else v),
       tokens := s1.tokens.filter (fun x => x.token ≠ tok),
       logs := logAuthEvent s1.logs entry }
     verifyEmailToken s1 tok t1 = .ok (some em, s2) ∧
     s2.tokens.find? (fun x => x.token == tok) = none ∧
     verifyEmailToken s2 tok t2 = .ok (none, s2)) := by
  intro s1 entry s2
  have hfind1 : s1.tokens.find? (fun x => x.token == tok) =
      some ⟨em, tok, t0 + 24 * 60 * 60 * 1000⟩ := by
    rw [gvt_tokens, find?_append_of_none _ _ _ (find?_token_eq_none _ _
      (fun vt hvt => hfresh vt (List.mem_filter.mp hvt).1))]
    simp [List.find?]
  have huser1 : s1.users.find? (fun v => v.email == em) = some u := by
    rw [gvt_users]; exact huser
  have hnone2 : s2.tokens.find? (fun x => x.token == tok) = none :=
    find?_token_filter_ne _ _
  refine ⟨?_, hnone2, ?_⟩
  · unfold verifyEmailToken
    rw [hfind1]
    simp only [if_neg hunexpired]
    rw [huser1]
  · unfold verifyEmailToken
    rw [hnone2]

/-- C5 witness: a token issued at time 0 for `bob@x.com` is consumed at time
1 (returning the email and deleting the row) and rejected at time 2. -/
theorem token_roundtrip_single_use_witness :
    (let s1 := (generateVerificationToken
        ⟨[], [⟨"u1", "bob@x.com", none, none, none, none⟩], [], []⟩
        "bob@x.com" "T" 0).2
     let entry : AuthLogEntry := ⟨.EMAIL_VERIFIED, some "bob@x.com", none, none, 1⟩
     let s2 : Sys := { s1 with
       users := s1.users.map (fun v =>
         if v.email == "bob@x.com" then { v with emailVerified := some 1 } else v),
       tokens := s1.tokens.filter (fun x => x.token ≠ "T"),
       logs := logAuthEvent s1.logs entry }
     verifyEmailToken s1 "T" 1 = .ok (some "bob@x.com", s2) ∧
     s2.tokens.find? (fun x => x.token == "T") = none ∧
     verifyEmailToken s2 "T" 2 = .ok (none, s2)) := by
  exact token_roundtrip_single_use _ _ _ _ _ _
    ⟨"u1", "bob@x.com", none, none, none, none⟩
    (by decide) (by decide) (by decide)

/-! ### C6: expired tokens are rejected and removed -/

/-- C6: a stored token whose expiry is strictly earlier than the current time
is rejected by its consumer (`verifyEmailToken` returns `none`;
`resetPasswordWithToken`, on a reset-namespaced token, returns `false`), the
row is deleted as a side effect, and the token is absent from the store
afterwards. -/
theorem token_expired_rejected
    (s : Sys) (tok : String) (now : Int) (vt : VerificationToken)
    (hfind : s.tokens.find? (fun x => x.token == tok) = some vt)
    (hexp : vt.expires < now)
    (s2 : Sys) (tok2 newPw : String) (hashPassword : String → String)
    (now2 : Int) (vt2 : VerificationToken)
    (hfind2 : s2.tokens.find? (fun x => x.token == tok2) = some vt2)
    (hpre2 : strStartsWith vt2.identifier "reset:" = true)
    (hexp2 : vt2.expires < now2) :
    (verifyEmailToken s tok now =
      .ok (none, { s with tokens := s.tokens.filter (fun x => x.token ≠ tok) }) ∧
     ({ s with tokens := s.tokens.filter (fun x => x.token ≠ tok) } :
        Sys).tokens.find? (fun x => x.token == tok) = none) ∧
    (resetPasswordWithToken s2 tok2 newPw hashPassword now2 =
      .ok (false,
        { s2 with tokens := s2.tokens.filter (fun x => x.token ≠ tok2) }) ∧
     ({ s2 with tokens := s2.tokens.filter (fun x => x.token ≠ tok2) } :
        Sys).tokens.find? (fun x => x.token == tok2) = none) := by
  refine ⟨⟨?_, find?_token_filter_ne _ _⟩, ⟨?_, find?_token_filter_ne _ _⟩⟩
  · unfold verifyEmailToken
    rw [hfind]
    simp only [if_pos hexp]
  · unfold resetPasswordWithToken
    rw [hfind2]
    dsimp only
    rw [if_neg (by simp [hpre2]), if_pos hexp2]

/-- C6 witness: a verification token stored already expired (`expires = now -
1`, i.e. issued with a negative ttl) and an expired reset token are both
rejected and removed. -/
theorem token_expired_rejected_witness :
    (verifyEmailToken ⟨[], [], [⟨"bob@x.com", "T", 9⟩], []⟩ "T" 10 =
      .ok (none, { (⟨[], [], [⟨"bob@x.com", "T", 9⟩], []⟩ : Sys) with
        tokens := [⟨"bob@x.com", "T", 9⟩].filter (fun x => x.token ≠ "T") }) ∧
     ({ (⟨[], [], [⟨"bob@x.com", "T", 9⟩], []⟩ : Sys) with
        tokens := [⟨"bob@x.com", "T", 9⟩].filter (fun x => x.token ≠ "T") } :
        Sys).tokens.find? (fun x => x.token == "T") = none) ∧
    (resetPasswordWithToken ⟨[], [], [⟨"reset:a@x.com", "R", 5⟩], []⟩ "R" "pw"
        (fun p => p) 6 =
      .ok (false, { (⟨[], [], [⟨"reset:a@x.com", "R", 5⟩], []⟩ : Sys) with
        tokens := [⟨"reset:a@x.com", "R", 5⟩].filter (fun x => x.token ≠ "R") }) ∧
     ({ (⟨[], [], [⟨"reset:a@x.com", "R", 5⟩], []⟩ : Sys) with
        tokens := [⟨"reset:a@x.com", "R", 5⟩].filter (fun x => x.token ≠ "R") } :
        Sys).tokens.find? (fun x => x.token == "R") = none) := by
  exact token_expired_rejected _ _ _ ⟨"bob@x.com", "T", 9⟩ (by decide)
    (by decide) _ _ _ _ _ ⟨"reset:a@x.com", "R", 5⟩ (by decide) (by decide)
    (by decide)

/-! ### C10: namespace asymmetry of the two token consumers -/

/-- C10: `resetPasswordWithToken` rejects (returns `false`) any stored token
whose identifier does not start with `"reset:"` and leaves the store
completely unchanged — it does not even delete an expired such token — while
`verifyEmailToken` performs no namespace test at all: any stored unexpired
token, whatever its identifier (a `"reset:"`-prefixed one included, see the
witness), flows past the lookup to the user update keyed by the raw
identifier and to the token deletion. -/
theorem token_namespace_asymmetry
    (sA : Sys) (tokA newPw : String) (hashPassword : String → String)
    (nowA : Int) (vtA : VerificationToken)
    (hfindA : sA.tokens.find? (fun x => x.token == tokA) = some vtA)
    (hnrA : strStartsWith vtA.identifier "reset:" = false)
    (sB : Sys) (tokB : String) (nowB : Int) (vtB : VerificationToken)
    (uB : User)
    (hfindB : sB.tokens.find? (fun x => x.token == tokB) = some vtB)
    (hexpB : ¬ vtB.expires < nowB)
    (huserB : sB.users.find? (fun v => v.email == vtB.identifier) = some uB) :
    resetPasswordWithToken sA tokA newPw hashPassword nowA = .ok (false, sA) ∧
    verifyEmailToken sB tokB nowB =
      .ok (some vtB.identifier,
        { sB with
          users := sB.users.map (fun v =>
            if v.email == vtB.identifier then
              { v with emailVerified := some nowB } else v),
          tokens := sB.tokens.filter (fun x => x.token ≠ tokB),
          logs := logAuthEvent sB.logs
            ⟨.EMAIL_VERIFIED, some vtB.identifier, none, none, nowB⟩ }) := by
  constructor
  · unfold resetPasswordWithToken
    rw [hfindA]
    dsimp only
    rw [if_pos (by simp [hnrA])]
  · unfold verifyEmailToken
    rw [hfindB]
    dsimp only
    rw [if_neg hexpB, huserB]

/-- C10 witness: a `"reset:"`-free token is rejected untouched by
`resetPasswordWithToken`, while `verifyEmailToken` happily consumes a
`"reset:bob@x.com"` token, stamping the user record stored under that raw
identifier. -/
theorem token_namespace_asymmetry_witness :
    resetPasswordWithToken ⟨[], [], [⟨"bob@x.com", "V", 5⟩], []⟩ "V" "pw"
        (fun p => p) 9 =
      .ok (false, ⟨[], [], [⟨"bob@x.com", "V", 5⟩], []⟩) ∧
    verifyEmailToken
        ⟨[], [⟨"u1", "reset:bob@x.com", none, none, none, none⟩],
         [⟨"reset:bob@x.com", "R", 5⟩], []⟩ "R" 3 =
      .ok (some "reset:bob@x.com",
        { (⟨[], [⟨"u1", "reset:bob@x.com", none, none, none, none⟩],
            [⟨"reset:bob@x.com", "R", 5⟩], []⟩ : Sys) with
          users := [⟨"u1", "reset:bob@x.com", none, none, none, none⟩].map
            (fun v => if v.email == "reset:bob@x.com" then
              { v with emailVerified := some 3 } else v),
          tokens := [⟨"reset:bob@x.com", "R", 5⟩].filter
            (fun x => x.token ≠ "R"),
          logs := logAuthEvent []
            ⟨.EMAIL_VERIFIED, some "reset:bob@x.com", none, none, 3⟩ }) := by
  have h := token_namespace_asymmetry
    ⟨[], [], [⟨"bob@x.com", "V", 5⟩], []⟩ "V" "pw" (fun p => p) 9
    ⟨"bob@x.com", "V", 5⟩ (by decide) (by decide)
    ⟨[], [⟨"u1", "reset:bob@x.com", none, none, none, none⟩],
     [⟨"reset:bob@x.com", "R", 5⟩], []⟩ "R" 3 ⟨"reset:bob@x.com", "R", 5⟩
    ⟨"u1", "reset:bob@x.com", none, none, none, none⟩
    (by decide) (by decide) (by decide)
  exact h

/-! ### Step lemmas about `authorize` -/

theorem authorize_wrong_password_step
    (s : Sys) (email password clientIp : String)
    (bcryptCompare : String → String → Bool) (now : Int) (u : User)
    (hash : String)
    (hemail : ¬ email = "") (hpw : ¬ password = "")
    (hfind : s.users.find? (fun v => v.email == strTrim (strToLower email)) =
      some u)
    (hhash : u.password = some hash)
    (hwrong : bcryptCompare password hash = false)
    (hok : (RateLimiter.check s.rl ("auth:" ++ strTrim (strToLower email))
        authPolicy now).1.success = true) :
    authorize s email password clientIp bcryptCompare now =
      ⟨.authError "Geçersiz email veya şifre" "INVALID_CREDENTIALS",
       { s with
          rl := (RateLimiter.check s.rl ("auth:" ++ strTrim (strToLower email))
            authPolicy now).2,
          logs := logAuthEvent s.logs
            ⟨.LOGIN_FAILED, some (strTrim (strToLower email)), some u.id,
             some clientIp, now⟩ },
       true⟩ := by
  unfold authorize
  rw [if_neg (by tauto)]
  dsimp only
  rw [if_neg (by simp [hok]), hfind]
  dsimp only
  rw [hhash]
  dsimp only
  rw [if_neg (by simp [hwrong])]

theorem authorize_not_found_step
    (s : Sys) (email password clientIp : String)
    (bcryptCompare : String → String → Bool) (now : Int)
    (hemail : ¬ email = "") (hpw : ¬ password = "")
    (hlookup : s.users.find?
        (fun v => v.email == strTrim (strToLower email)) = none ∨
      ∃ u, s.users.find?
          (fun v => v.email == strTrim (strToLower email)) = some u ∧
        u.password = none)
    (hok : (RateLimiter.check s.rl ("auth:" ++ strTrim (strToLower email))
        authPolicy now).1.success = true) :
    (authorize s email password clientIp bcryptCompare now).outcome =
      .authError "Geçersiz email veya şifre" "INVALID_CREDENTIALS" ∧
    (authorize s email password clientIp bcryptCompare
      now).credentialStoreConsulted = true := by
  unfold authorize
  rw [if_neg (by tauto)]
  dsimp only
  rw [if_neg (by simp [hok])]
  rcases hlookup with hnone | ⟨u, hsome, hpass⟩
  · rw [hnone]
    exact ⟨rfl, rfl⟩
  · rw [hsome]
    dsimp only
    rw [hpass]
    exact ⟨rfl, rfl⟩

theorem authorize_rate_limited_step
    (s : Sys) (email password clientIp : String)
    (bcryptCompare : String → String → Bool) (now : Int)
    (hemail : ¬ email = "") (hpw : ¬ password = "")
    (hfail : (RateLimiter.check s.rl ("auth:" ++ strTrim (strToLower email))
        authPolicy now).1.success = false) :
    authorize s email password clientIp bcryptCompare now =
      ⟨.rateLimitError (rateLimitMessage
          ((RateLimiter.check s.rl ("auth:" ++ strTrim (strToLower email))
            authPolicy now).1.remainingMs.getD 0)),
       { s with
          rl := (RateLimiter.check s.rl ("auth:" ++ strTrim (strToLower email))
            authPolicy now).2,
          logs := logAuthEvent s.logs
            ⟨.LOGIN_RATE_LIMITED, some (strTrim (strToLower email)), none,
             some clientIp, now⟩ },
       false⟩ := by
  unfold authorize
  rw [if_neg (by tauto)]
  dsimp only
  rw [if_pos hfail]

theorem authorize_success_step
    (s : Sys) (email password clientIp : String)
    (bcryptCompare : String → String → Bool) (now : Int) (u : User)
    (hash : String)
    (hemail : ¬ email = "") (hpw : ¬ password = "")
    (hfind : s.users.find? (fun v => v.email == strTrim (strToLower email)) =
      some u)
    (hhash : u.password = some hash)
    (hright : bcryptCompare password hash = true)
    (hok : (RateLimiter.check s.rl ("auth:" ++ strTrim (strToLower email))
        authPolicy now).1.success = true) :
    authorize s email password clientIp bcryptCompare now =
      ⟨.user u.id u.email u.name u.image u.emailVerified,
       { s with
          rl := RateLimiter.reset
            (RateLimiter.check s.rl ("auth:" ++ strTrim (strToLower email))
              authPolicy now).2 ("auth:" ++ strTrim (strToLower email)),
          logs := logAuthEvent s.logs
            ⟨.LOGIN_SUCCESS, some (strTrim (strToLower email)), some u.id,
             some clientIp, now⟩ },
       true⟩ := by
  unfold authorize
  rw [if_neg (by tauto)]
  dsimp only
  rw [if_neg (by simp [hok]), hfind]
  dsimp only
  rw [hhash]
  dsimp only
  rw [if_pos (by simp [hright])]

theorem authorize_first_failure
    (s : Sys) (email password clientIp : String)
    (bcryptCompare : String → String → Bool) (now : Int) (u : User)
    (hash : String)
    (hemail : ¬ email = "") (hpw : ¬ password = "")
    (hfind : s.users.find? (fun v => v.email == strTrim (strToLower email)) =
      some u)
    (hhash : u.password = some hash)
    (hwrong : bcryptCompare password hash = false)
    (hrl : s.rl = []) :
    (authorize s email password clientIp bcryptCompare now).outcome =
      .authError "Geçersiz email veya şifre" "INVALID_CREDENTIALS" ∧
    (authorize s email password clientIp bcryptCompare now).sys.rl =
      [("auth:" ++ strTrim (strToLower email), ⟨1, now, now⟩)] ∧
    (authorize s email password clientIp bcryptCompare now).sys.users =
      s.users ∧
    (authorize s email password clientIp bcryptCompare
      now).credentialStoreConsulted = true := by
  have hok : (RateLimiter.check s.rl ("auth:" ++ strTrim (strToLower email))
      authPolicy now).1.success = true := by
    rw [hrl, check_fresh]
  rw [authorize_wrong_password_step s email password clientIp bcryptCompare
    now u hash hemail hpw hfind hhash hwrong hok]
  refine ⟨rfl, ?_, rfl, rfl⟩
  dsimp only
  rw [hrl, check_fresh]

theorem authorize_next_failure
    (s : Sys) (email password clientIp : String)
    (bcryptCompare : String → String → Bool) (now : Int) (u : User)
    (hash : String) (c : Nat) (f l : Int)
    (hemail : ¬ email = "") (hpw : ¬ password = "")
    (hfind : s.users.find? (fun v => v.email == strTrim (strToLower email)) =
      some u)
    (hhash : u.password = some hash)
    (hwrong : bcryptCompare password hash = false)
    (hrl : s.rl = [("auth:" ++ strTrim (strToLower email), ⟨c, f, l⟩)])
    (hwinl : ¬ now - f > authPolicy.windowMs)
    (hc : c + 1 ≤ authPolicy.maxAttempts) :
    (authorize s email password clientIp bcryptCompare now).outcome =
      .authError "Geçersiz email veya şifre" "INVALID_CREDENTIALS" ∧
    (authorize s email password clientIp bcryptCompare now).sys.rl =
      [("auth:" ++ strTrim (strToLower email), ⟨c + 1, f, now⟩)] ∧
    (authorize s email password clientIp bcryptCompare now).sys.users =
      s.users ∧
    (authorize s email password clientIp bcryptCompare
      now).credentialStoreConsulted = true := by
  have hok : (RateLimiter.check s.rl ("auth:" ++ strTrim (strToLower email))
      authPolicy now).1.success = true := by
    rw [hrl, check_in_window _ _ _ _ _ _ hwinl hc]
  rw [authorize_wrong_password_step s email password clientIp bcryptCompare
    now u hash hemail hpw hfind hhash hwrong hok]
  refine ⟨rfl, ?_, rfl, rfl⟩
  dsimp only
  rw [hrl, check_in_window _ _ _ _ _ _ hwinl hc]

theorem authorize_limited
    (s : Sys) (email password clientIp : String)
    (bcryptCompare : String → String → Bool) (now : Int) (c : Nat) (f l : Int)
    (hemail : ¬ email = "") (hpw : ¬ password = "")
    (hrl : s.rl = [("auth:" ++ strTrim (strToLower email), ⟨c, f, l⟩)])
    (hwinl : ¬ now - f > authPolicy.windowMs)
    (hc : authPolicy.maxAttempts < c + 1) :
    (authorize s email password clientIp bcryptCompare now).outcome =
      .rateLimitError (rateLimitMessage
        (max 0 (authPolicy.windowMs - (now - f)))) ∧
    (authorize s email password clientIp bcryptCompare
      now).credentialStoreConsulted = false := by
  have hchk := check_exceeded ("auth:" ++ strTrim (strToLower email))
    authPolicy now f l c hwinl hc
  have hfail : (RateLimiter.check s.rl ("auth:" ++ strTrim (strToLower email))
      authPolicy now).1.success = false := by
    rw [hrl, hchk]
  rw [authorize_rate_limited_step s email password clientIp bcryptCompare now
    hemail hpw hfail]
  refine ⟨?_, rfl⟩
  dsimp only
  rw [hrl, hchk]
  rfl

/-! ### C1: lockout after five failures, reset on success -/

/-- C1: starting from an empty rate-limit store, five consecutive failed
login attempts (wrong password) for the same normalized email within 15
minutes are each rejected with the generic invalid-credentials `AuthError`,
and the sixth `authorize` call for that email is rejected with a
`RateLimitError` without the credential store being consulted; furthermore a
successful login (second scenario, arbitrary state) deletes the rate-limit
entry for that email's key, so the next check starts a fresh window with
`remaining = 4`. -/
theorem authorize_lockout_and_reset
    (users : List User) (tokens : List VerificationToken)
    (logs : List AuthLogEntry) (email password clientIp : String)
    (bcryptCompare : String → String → Bool) (u : User) (hash : String)
    (t1 t2 t3 t4 t5 t6 : Int)
    (s2 : Sys) (email2 password2 ip2 : String)
    (cmp2 : String → String → Bool) (now2 tNext : Int) (u2 : User)
    (hash2 : String)
    (hemail : ¬ email = "") (hpw : ¬ password = "")
    (hfind : users.find? (fun v => v.email == strTrim (strToLower email)) =
      some u)
    (hhash : u.password = some hash)
    (hwrong : bcryptCompare password hash = false)
    (h12 : t1 ≤ t2) (h23 : t2 ≤ t3) (h34 : t3 ≤ t4) (h45 : t4 ≤ t5)
    (h56 : t5 ≤ t6) (hwin : t6 - t1 ≤ 900000)
    (hemail2 : ¬ email2 = "") (hpw2 : ¬ password2 = "")
    (hfind2 : s2.users.find?
      (fun v => v.email == strTrim (strToLower email2)) = some u2)
    (hhash2 : u2.password = some hash2)
    (hright : cmp2 password2 hash2 = true)
    (hok2 : (RateLimiter.check s2.rl ("auth:" ++ strTrim (strToLower email2))
        authPolicy now2).1.success = true) :
    (let s0 : Sys := ⟨[], users, tokens, logs⟩
     let r1 := authorize s0 email password clientIp bcryptCompare t1
     let r2 := authorize r1.sys email password clientIp bcryptCompare t2
     let r3 := authorize r2.sys email password clientIp bcryptCompare t3
     let r4 := authorize r3.sys email password clientIp bcryptCompare t4
     let r5 := authorize r4.sys email password clientIp bcryptCompare t5
     let r6 := authorize r5.sys email password clientIp bcryptCompare t6
     r1.outcome = .authError "Geçersiz email veya şifre"
       "INVALID_CREDENTIALS" ∧
     r2.outcome = .authError "Geçersiz email veya şifre"
       "INVALID_CREDENTIALS" ∧
     r3.outcome = .authError "Geçersiz email veya şifre"
       "INVALID_CREDENTIALS" ∧
     r4.outcome = .authError "Geçersiz email veya şifre"
       "INVALID_CREDENTIALS" ∧
     r5.outcome = .authError "Geçersiz email veya şifre"
       "INVALID_CREDENTIALS" ∧
     r6.outcome = .rateLimitError
       (rateLimitMessage (max 0 (900000 - (t6 - t1)))) ∧
     r6.credentialStoreConsulted = false) ∧
    (let r := authorize s2 email2 password2 ip2 cmp2 now2
     r.outcome = .user u2.id u2.email u2.name u2.image u2.emailVerified ∧
     rlGet r.sys.rl ("auth:" ++ strTrim (strToLower email2)) = none ∧
     (RateLimiter.check r.sys.rl ("auth:" ++ strTrim (strToLower email2))
        authPolicy tNext).1 = ⟨true, 4, none⟩) := by
  have hW : authPolicy.windowMs = 900000 := by
    norm_num [authPolicy, LOCKOUT_DURATION_MINUTES]
  have hP : authPolicy.maxAttempts = 5 := rfl
  dsimp only
  constructor
  · obtain ⟨o1, rl1, us1, c1⟩ := authorize_first_failure
      ⟨[], users, tokens, logs⟩ email password clientIp bcryptCompare t1
      u hash hemail hpw hfind hhash hwrong rfl
    obtain ⟨o2, rl2, us2, c2⟩ := authorize_next_failure
      (authorize ⟨[], users, tokens, logs⟩ email password clientIp
        bcryptCompare t1).sys
      email password clientIp bcryptCompare t2 u hash 1 t1 t1 hemail hpw
      (by rw [us1]; exact hfind) hhash hwrong rl1
      (by rw [hW]; omega) (by norm_num [hP])
    rw [us1] at us2
    obtain ⟨o3, rl3, us3, c3⟩ := authorize_next_failure _
      email password clientIp bcryptCompare t3 u hash 2 t1 t2 hemail hpw
      (by rw [us2]; exact hfind) hhash hwrong rl2
      (by rw [hW]; omega) (by norm_num [hP])
    rw [us2] at us3
    obtain ⟨o4, rl4, us4, c4⟩ := authorize_next_failure _
      email password clientIp bcryptCompare t4 u hash 3 t1 t3 hemail hpw
      (by rw [us3]; exact hfind) hhash hwrong rl3
      (by rw [hW]; omega) (by norm_num [hP])
    rw [us3] at us4
    obtain ⟨o5, rl5, us5, c5⟩ := authorize_next_failure _
      email password clientIp bcryptCompare t5 u hash 4 t1 t4 hemail hpw
      (by rw [us4]; exact hfind) hhash hwrong rl4
      (by rw [hW]; omega) (by norm_num [hP])
    obtain ⟨o6, c6⟩ := authorize_limited _
      email password clientIp bcryptCompare t6 5 t1 t5 hemail hpw rl5
      (by rw [hW]; omega) (by norm_num [hP])
    rw [hW] at o6
    exact ⟨o1, o2, o3, o4, o5, o6, c6⟩
  · rw [authorize_success_step s2 email2 password2 ip2 cmp2 now2 u2 hash2
      hemail2 hpw2 hfind2 hhash2 hright hok2]
    dsimp only
    have hnone : rlGet (RateLimiter.reset
        (RateLimiter.check s2.rl ("auth:" ++ strTrim (strToLower email2))
          authPolicy now2).2 ("auth:" ++ strTrim (strToLower email2)))
        ("auth:" ++ strTrim (strToLower email2)) = none :=
      rlGet_rlDelete_self _ _
    refine ⟨rfl, hnone, ?_⟩
    rw [check_of_rlGet_none _ _ _ _ hnone]
    dsimp only
    rw [hP]
    norm_num

/-- C1 witness: user `bob@x.com` with hash `"H"`, wrong password `"bad"` five
times at time 0, sixth call rejected without a credential lookup; then a
successful login with password `"good"` clears the entry. -/
theorem authorize_lockout_and_reset_witness :
    (let s0 : Sys := ⟨[], [⟨"u1", "bob@x.com", none, some "H", none, none⟩],
      [], []⟩
     let r1 := authorize s0 "bob@x.com" "bad" "1.2.3.4"
       (fun p _ => p == "good") 0
     let r2 := authorize r1.sys "bob@x.com" "bad" "1.2.3.4"
       (fun p _ => p == "good") 0
     let r3 := authorize r2.sys "bob@x.com" "bad" "1.2.3.4"
       (fun p _ => p == "good") 0
     let r4 := authorize r3.sys "bob@x.com" "bad" "1.2.3.4"
       (fun p _ => p == "good") 0
     let r5 := authorize r4.sys "bob@x.com" "bad" "1.2.3.4"
       (fun p _ => p == "good") 0
     let r6 := authorize r5.sys "bob@x.com" "bad" "1.2.3.4"
       (fun p _ => p == "good") 0
     r1.outcome = .authError "Geçersiz email veya şifre"
       "INVALID_CREDENTIALS" ∧
     r2.outcome = .authError "Geçersiz email veya şifre"
       "INVALID_CREDENTIALS" ∧
     r3.outcome = .authError "Geçersiz email veya şifre"
       "INVALID_CREDENTIALS" ∧
     r4.outcome = .authError "Geçersiz email veya şifre"
       "INVALID_CREDENTIALS" ∧
     r5.outcome = .authError "Geçersiz email veya şifre"
       "INVALID_CREDENTIALS" ∧
     r6.outcome = .rateLimitError
       (rateLimitMessage (max 0 (900000 - ((0 : Int) - 0)))) ∧
     r6.credentialStoreConsulted = false) ∧
    (let r := authorize
       ⟨[], [⟨"u1", "bob@x.com", none, some "H", none, none⟩], [], []⟩
       "bob@x.com" "good" "1.2.3.4" (fun p _ => p == "good") 0
     r.outcome = .user "u1" "bob@x.com" none none none ∧
     rlGet r.sys.rl ("auth:" ++ strTrim (strToLower "bob@x.com")) = none ∧
     (RateLimiter.check r.sys.rl ("auth:" ++ strTrim (strToLower "bob@x.com"))
        authPolicy 7).1 = ⟨true, 4, none⟩) := by
  exact authorize_lockout_and_reset
    [⟨"u1", "bob@x.com", none, some "H", none, none⟩] [] []
    "bob@x.com" "bad" "1.2.3.4" (fun p _ => p == "good")
    ⟨"u1", "bob@x.com", none, some "H", none, none⟩ "H" 0 0 0 0 0 0
    ⟨[], [⟨"u1", "bob@x.com", none, some "H", none, none⟩], [], []⟩
    "bob@x.com" "good" "1.2.3.4" (fun p _ => p == "good") 0 7
    ⟨"u1", "bob@x.com", none, some "H", none, none⟩ "H"
    (by decide) (by decide) (by decide) (by decide) (by decide)
    (by decide) (by decide) (by decide) (by decide) (by decide) (by decide)
    (by decide) (by decide) (by decide) (by decide) (by decide) (by decide)

/-! ### C2: indistinguishable rejection -/

/-- C2: a login with a registered email and wrong password (scenario A) and a
login with a nonexistent email or an account with no password hash (scenario
B) are rejected with byte-identical payloads: the same `AuthError` message
`"Geçersiz email veya şifre"` with the same code `INVALID_CREDENTIALS`, so
the response reveals nothing about whether the account exists. -/
theorem authorize_indistinguishable_rejection
    (sA sB : Sys) (emailA pwA ipA emailB pwB ipB : String)
    (cmpA cmpB : String → String → Bool) (nowA nowB : Int)
    (uA : User) (hashA : String)
    (hA1 : ¬ emailA = "") (hA2 : ¬ pwA = "")
    (hAfind : sA.users.find?
      (fun v => v.email == strTrim (strToLower emailA)) = some uA)
    (hAhash : uA.password = some hashA)
    (hAwrong : cmpA pwA hashA = false)
    (hAok : (RateLimiter.check sA.rl ("auth:" ++ strTrim (strToLower emailA))
        authPolicy nowA).1.success = true)
    (hB1 : ¬ emailB = "") (hB2 : ¬ pwB = "")
    (hBlookup : sB.users.find?
        (fun v => v.email == strTrim (strToLower emailB)) = none ∨
      ∃ v, sB.users.find?
          (fun w => w.email == strTrim (strToLower emailB)) = some v ∧
        v.password = none)
    (hBok : (RateLimiter.check sB.rl ("auth:" ++ strTrim (strToLower emailB))
        authPolicy nowB).1.success = true) :
    (authorize sA emailA pwA ipA cmpA nowA).outcome =
      .authError "Geçersiz email veya şifre" "INVALID_CREDENTIALS" ∧
    (authorize sB emailB pwB ipB cmpB nowB).outcome =
      .authError "Geçersiz email veya şifre" "INVALID_CREDENTIALS" ∧
    (authorize sA emailA pwA ipA cmpA nowA).outcome =
      (authorize sB emailB pwB ipB cmpB nowB).outcome := by
  have hA := authorize_wrong_password_step sA emailA pwA ipA cmpA nowA uA
    hashA hA1 hA2 hAfind hAhash hAwrong hAok
  have hB := authorize_not_found_step sB emailB pwB ipB cmpB nowB hB1 hB2
    hBlookup hBok
  refine ⟨by rw [hA], hB.1, ?_⟩
  rw [hA, hB.1]

/-- C2 witness: wrong password for registered `bob@x.com` versus nonexistent
`eve@x.com` on an empty user table — identical error payloads. -/
theorem authorize_indistinguishable_rejection_witness :
    (authorize ⟨[], [⟨"u1", "bob@x.com", none, some "H", none, none⟩], [], []⟩
        "bob@x.com" "bad" "1.2.3.4" (fun p _ => p == "good") 0).outcome =
      .authError "Geçersiz email veya şifre" "INVALID_CREDENTIALS" ∧
    (authorize ⟨[], [], [], []⟩ "eve@x.com" "whatever" "5.6.7.8"
        (fun p _ => p == "good") 0).outcome =
      .authError "Geçersiz email veya şifre" "INVALID_CREDENTIALS" ∧
    (authorize ⟨[], [⟨"u1", "bob@x.com", none, some "H", none, none⟩], [], []⟩
        "bob@x.com" "bad" "1.2.3.4" (fun p _ => p == "good") 0).outcome =
      (authorize ⟨[], [], [], []⟩ "eve@x.com" "whatever" "5.6.7.8"
        (fun p _ => p == "good") 0).outcome := by
  exact authorize_indistinguishable_rejection
    ⟨[], [⟨"u1", "bob@x.com", none, some "H", none, none⟩], [], []⟩
    ⟨[], [], [], []⟩ "bob@x.com" "bad" "1.2.3.4" "eve@x.com" "whatever"
    "5.6.7.8" (fun p _ => p == "good") (fun p _ => p == "good") 0 0
    ⟨"u1", "bob@x.com", none, some "H", none, none⟩ "H"
    (by decide) (by decide) (by decide) (by decide) (by decide) (by decide)
    (by decide) (by decide) (Or.inl (by decide)) (by decide)

end Progressor
